import Mathlib

/-!
Verification of the Capacity-Constrained Assignment Optimizer
(`modelo_optimizacion.py`, classes `DiagnosticoInfactibilidad` and
`OptimizadorAsignacion`, plus the utilization metric of `model.py`).

Shallow embedding conventions:
* Python dicts become association lists (`List (key × value)`); dict insertion
  order, which Python preserves and the source iterates over, is the list order.
* Costs (floating-point distances in the source) are modelled as rationals;
  every numeric literal the source uses (1.5, 0.75, 1.25, 0.3, 3.0) is exact.
* Python `int(x)` (truncation toward zero) is `entero`; all truncated values in
  the source are non-negative, where truncation agrees with `floor`.
* The external MILP solver (`pulp` + CBC) is an oracle
  `ModeloPLE → SolveOutcome`; a raised solver exception is `SolveOutcome.error`
  and propagates out of the relaxation loop, which the search models as the
  `abortado` outcome.
* `print` reporting that carries information (violations found, diagnoses,
  the name of the successful strategy) is reified in the returned values.
-/

/-- Sparse cost table `{resource_id: {demand_id: cost}}`
(`matriz_distancias` / `matriz_tiempos` in the source). -/
abbrev Matriz := List (String × List (String × ℚ))

/-- Capacity table `{resource_id: capacity}` (`capacidades` in the source). -/
abbrev Capacidades := List (String × ℕ)

/-- Row of a resource: `matriz_distancias[i]`. -/
def buscarFila (m : Matriz) (i : String) : Option (List (String × ℚ)) :=
  (m.find? (fun p => p.1 == i)).map (fun p => p.2)

/-- Cost entry `matriz[i][j]`, `none` when the pairing is undefined. -/
def entrada (m : Matriz) (i j : String) : Option ℚ :=
  (buscarFila m i).bind (fun fila => (fila.find? (fun p => p.1 == j)).map (fun p => p.2))

/-- Python `j in matriz[i]` (for `i` a key of `matriz`). -/
def tieneEntrada (m : Matriz) (i j : String) : Bool :=
  (entrada m i j).isSome

/-- `list(matriz_distancias.keys())`, assigned to `self.patios_ids`. -/
def patios_ids (m : Matriz) : List String :=
  m.map (fun p => p.1)

/-- `[p for p in matriz_distancias.keys() if ruta_id in matriz_distancias[p]]`. -/
def patiosPosibles (m : Matriz) (ruta : String) : List String :=
  (patios_ids m).filter (fun p => tieneEntrada m p ruta)

/-- `[j for j in rutas_ids if j in matriz_distancias[i]]`. -/
def rutas_validas (m : Matriz) (rutas_ids : List String) (i : String) : List String :=
  rutas_ids.filter (fun j => tieneEntrada m i j)

/-- `Config.CAPACIDAD_PATIO_DEFAULT` from `config.py`. -/
def CAPACIDAD_PATIO_DEFAULT : ℕ := 15

/-- `capacidades.get(i)`: the raw table lookup, without default. -/
def capacidadBruta (caps : Capacidades) (i : String) : Option ℕ :=
  (caps.find? (fun p => p.1 == i)).map (fun p => p.2)

/-- `capacidades.get(i, Config.CAPACIDAD_PATIO_DEFAULT)`. -/
def capacidadDe (caps : Capacidades) (i : String) : ℕ :=
  (capacidadBruta caps i).getD CAPACIDAD_PATIO_DEFAULT

/-- `sum(capacidades.values())`. -/
def capacidadTotal (caps : Capacidades) : ℕ :=
  (caps.map (fun p => p.2)).sum

/-- Python `int(q)`: truncation toward zero. Every value truncated in the
source is non-negative, so the result is returned as a natural number. -/
def entero (q : ℚ) : ℕ :=
  (q.num.tdiv (q.den : ℤ)).toNat

/-- Blocking problems the pre-check can report (the `❌ PROBLEMA` prints of
`verificar_factibilidad_basica`). -/
inductive Violacion
  | capacidadInsuficiente
  | rutasSinPatio
deriving DecidableEq

/-- `DiagnosticoInfactibilidad.verificar_factibilidad_basica`: returns the
boolean result together with the blocking problems reported before returning.
The source returns `False` at the first failed check (capacity first, then
isolated routes), so at most one violation is ever reported; the third check
of the source only prints warnings and does not affect the result. -/
def verificar_factibilidad_basica (matriz : Matriz) (caps : Capacidades)
    (rutas_ids : List String) : Bool × List Violacion :=
  if rutas_ids.length > capacidadTotal caps then
    (false, [Violacion.capacidadInsuficiente])
  else
    let rutas_sin_patio := rutas_ids.filter (fun r => (patiosPosibles matriz r).isEmpty)
    if rutas_sin_patio.isEmpty then (true, []) else (false, [Violacion.rutasSinPatio])

/-- `DiagnosticoInfactibilidad.relajar_capacidades`:
`nuevas_capacidades[p] = int(capacidad * factor)`. -/
def relajar_capacidades (caps : Capacidades) (factor : ℚ) : Capacidades :=
  caps.map (fun p => (p.1, entero ((p.2 : ℚ) * factor)))

/-- `DiagnosticoInfactibilidad.ajustar_balance_carga`:
`carga_promedio = total_rutas / total_patios`,
`min_rutas = max(1, int(carga_promedio * factor_min))`,
`max_rutas = int(carga_promedio * factor_max)`.
(The source would raise `ZeroDivisionError` on `total_patios = 0`; its only
caller guards with `total_patios > 0`.) -/
def ajustar_balance_carga (total_rutas total_patios : ℕ)
    (factor_min factor_max : ℚ) : ℕ × ℕ :=
  let carga_promedio : ℚ := (total_rutas : ℚ) / (total_patios : ℚ)
  (max 1 (entero (carga_promedio * factor_min)), entero (carga_promedio * factor_max))

/-- The balance-factor pairs hard-coded at the call sites in
`crear_modelo_ple`: `(0.3, 3.0)` when relaxing, `(0.75, 1.25)` otherwise. -/
def factoresBalance (relajar : Bool) : ℚ × ℚ :=
  if relajar then (3 / 10, 3) else (3 / 4, 5 / 4)

/-- The binary optimization model built by `crear_modelo_ple`, with the
`objetivo='distancia'` objective used at every call site of the program.
Constraints record exactly the sums the source passes to `pulp.lpSum`:
`restRuta j pv` is `Σ_{i ∈ pv} x[i,j] = 1`, `restCapacidad i rv c` is
`Σ_{j ∈ rv} x[i,j] ≤ c`, and `restBalance i rv mn mx` is
`mn ≤ Σ_{j ∈ rv} x[i,j] ≤ mx`. Right-hand sides are natural numbers: all
rounding happened before the model exists. -/
structure ModeloPLE where
  vars : List (String × String)
  objetivo : List ((String × String) × ℚ)
  restRuta : List (String × List String)
  restCapacidad : List (String × List String × ℕ)
  restBalance : List (String × List String × ℕ × ℕ)
deriving DecidableEq

/-- `OptimizadorAsignacion.crear_modelo_ple` (objective `'distancia'`).
`capacidades_ajustadas` starts as a copy of the loaded capacities and is
replaced by `relajar_capacidades(self.capacidades, factor=1.5)` when
`relajar_restricciones`; balance bounds come from `ajustar_balance_carga`
with factors `(0.3, 3.0)` when relaxing and `(0.75, 1.25)` otherwise, and a
balance constraint is added only for resources whose valid-route list is
nonempty and at least `min_rutas` long. -/
def crear_modelo_ple (matriz : Matriz) (caps : Capacidades) (rutas_ids : List String)
    (balance_carga relajar_restricciones : Bool) : ModeloPLE :=
  let patios := patios_ids matriz
  let capacidades_ajustadas :=
    if relajar_restricciones then relajar_capacidades caps (3 / 2) else caps
  let vars :=
    (patios.map (fun i => (rutas_validas matriz rutas_ids i).map (fun j => (i, j)))).flatten
  let objetivo := vars.map (fun p => (p, (entrada matriz p.1 p.2).getD 0))
  let restRuta :=
    rutas_ids.filterMap (fun j =>
      let patios_validos := patiosPosibles matriz j
      if patios_validos.isEmpty then none else some (j, patios_validos))
  let restCapacidad :=
    patios.filterMap (fun i =>
      let capacidad := capacidadDe capacidades_ajustadas i
      let rv := rutas_validas matriz rutas_ids i
      if rv.isEmpty then none else some (i, rv, capacidad))
  let restBalance :=
    if balance_carga && decide (0 < patios.length) then
      let f := factoresBalance relajar_restricciones
      let lim := ajustar_balance_carga rutas_ids.length patios.length f.1 f.2
      patios.filterMap (fun i =>
        let rv := rutas_validas matriz rutas_ids i
        if !rv.isEmpty && decide (lim.1 ≤ rv.length) then
          some (i, rv, lim.1, lim.2)
        else none)
    else []
  ⟨vars, objetivo, restRuta, restCapacidad, restBalance⟩

/-- Value of `lpSum(x[(i, j)] for j in rv)` under the 0/1 valuation whose set
of variables equal to `1` is `sol`. -/
def sumaPatio (sol : List (String × String)) (i : String) (rv : List String) : ℕ :=
  (rv.filter (fun j => sol.contains (i, j))).length

/-- Value of `lpSum(x[(i, j)] for i in pv)` under the same valuation. -/
def sumaRuta (sol : List (String × String)) (j : String) (pv : List String) : ℕ :=
  (pv.filter (fun i => sol.contains (i, j))).length

/-- A 0/1 valuation (given by its set `sol` of variables equal to `1`)
satisfies every constraint of the model. -/
def satisface (m : ModeloPLE) (sol : List (String × String)) : Bool :=
  m.restRuta.all (fun r => sumaRuta sol r.1 r.2 == 1) &&
  m.restCapacidad.all (fun r => decide (sumaPatio sol r.1 r.2.1 ≤ r.2.2)) &&
  m.restBalance.all (fun r =>
    decide (r.2.2.1 ≤ sumaPatio sol r.1 r.2.1) && decide (sumaPatio sol r.1 r.2.1 ≤ r.2.2.2))

/-- Objective value `Σ x[(i, j)] * matriz[i][j]` of the valuation `sol`. -/
def costo (m : ModeloPLE) (sol : List (String × String)) : ℚ :=
  ((m.objetivo.filter (fun p => sol.contains p.1)).map (fun p => p.2)).sum

/-- The statuses `pulp.LpStatus` can report after `prob.solve`. -/
inductive LpStatusE
  | Optimal
  | Infeasible
  | Unbounded
  | Undefined
  | NotSolved
deriving DecidableEq

/-- One row of the `asignaciones` records built by `extraer_resultados`
(the geodata name columns are presentation-only and omitted). -/
structure Fila where
  patio_id : String
  ruta_id : String
  distancia_km : ℚ
  tiempo_minutos : ℚ
deriving DecidableEq

/-- The pairs collected by the extraction loop
`for i in patios_ids: for j in rutas_ids: if (i, j) in x and value(x[(i, j)]) == 1`,
in loop order; `vals` is the set of variables the solver set to `1`. -/
def paresAsignados (matriz : Matriz) (rutas_ids : List String)
    (vals : List (String × String)) : List (String × String) :=
  ((patios_ids matriz).map (fun i =>
    ((rutas_validas matriz rutas_ids i).filter (fun j => vals.contains (i, j))).map
      (fun j => (i, j)))).flatten

/-- `OptimizadorAsignacion.extraer_resultados`: `None` unless the stored solve
status is `Optimal`; otherwise the record list of all pairs at value `1`,
or `None` when that list is empty (`len(self.resultados) > 0` fails). -/
def extraer_resultados (matriz tiempos : Matriz) (rutas_ids : List String)
    (status : LpStatusE) (vals : List (String × String)) : Option (List Fila) :=
  if status ≠ LpStatusE.Optimal then none
  else
    let asignaciones := (paresAsignados matriz rutas_ids vals).map (fun p =>
      ⟨p.1, p.2, (entrada matriz p.1 p.2).getD 0, (entrada tiempos p.1 p.2).getD 0⟩)
    if asignaciones.length > 0 then some asignaciones else none

/-- Per-resource load count: `resultados.groupby('patio_id')` count in
`_calcular_metricas`, and `asignaciones_por_patio` in `model.py`. -/
def cargaPatio (filas : List Fila) (i : String) : ℕ :=
  (filas.filter (fun f => f.patio_id == i)).length

/-- `self.distancia_total = self.resultados['distancia_km'].sum()`. -/
def distanciaTotal (filas : List Fila) : ℚ :=
  (filas.map (fun f => f.distancia_km)).sum

/-- `utilizacion = (count / capacidad) * 100` (`model.py`, reporting of the
per-resource load distribution). -/
def utilizacion (carga capacidad : ℕ) : ℚ :=
  ((carga : ℚ) / (capacidad : ℚ)) * 100

/-- The content of the infeasibility report printed by
`_diagnosticar_infactibilidad`: the capacity deficit (zero when capacity
suffices), the routes with no possible resource, and the resources among the
first ten whose possible-route count is below their stated capacity. -/
structure Diagnostico where
  deficit_capacidad : ℕ
  rutas_sin_patio : List String
  patios_sobredimensionados : List String
deriving DecidableEq

/-- `OptimizadorAsignacion._diagnosticar_infactibilidad`, computed from the
loaded snapshot (`self.matriz_distancias`, `self.capacidades`,
`self.rutas_ids`) — it never reads the model or the relaxed capacities. -/
def diagnosticar_infactibilidad (matriz : Matriz) (caps : Capacidades)
    (rutas_ids : List String) : Diagnostico :=
  let deficit := rutas_ids.length - capacidadTotal caps
  let rutas_sin_patio := rutas_ids.filter (fun r => (patiosPosibles matriz r).isEmpty)
  let sobre := ((patios_ids matriz).take 10).filter (fun i =>
    ((buscarFila matriz i).getD []).length < capacidadDe caps i)
  ⟨deficit, rutas_sin_patio, sobre⟩

/-- One entry of the `estrategias` list of `resolver_con_relajacion`. -/
structure Estrategia where
  balance_carga : Bool
  relajar_restricciones : Bool
  nombre : String
deriving DecidableEq

/-- The fixed strategy list of `resolver_con_relajacion`. -/
def estrategias : List Estrategia :=
  [⟨true, false, "Estricto"⟩, ⟨true, true, "Relajado 1"⟩, ⟨false, true, "Relajado 2"⟩]

/-- Placeholder used with `List.getD` when indexing `estrategias`; never
reached under the index bounds of the theorems below. -/
def estrategiaDefecto : Estrategia :=
  ⟨true, false, "Estricto"⟩

/-- The immutable input snapshot loaded by `cargar_datos_optimizacion`. -/
structure Datos where
  matriz : Matriz
  tiempos : Matriz
  capacidades : Capacidades
  rutas_ids : List String
deriving DecidableEq

/-- Result of one `prob.solve(solver)` call: either a normalized status plus
the set of variables at value `1`, or a raised solver exception
(`pulp.PulpSolverError` and kin), which the source never catches. -/
inductive SolveOutcome
  | ok (status : LpStatusE) (vals : List (String × String))
  | error

/-- The model the search builds for strategy `e`:
`crear_modelo_ple(objetivo='distancia', **estrategia)`. -/
def modeloDe (d : Datos) (e : Estrategia) : ModeloPLE :=
  crear_modelo_ple d.matriz d.capacidades d.rutas_ids e.balance_carga e.relajar_restricciones

/-- The attempt for strategy `e` returns `Optimal` and its extraction yields a
nonempty record list — the condition under which `resolver_con_relajacion`
returns inside the loop. -/
def intentoExitoso (d : Datos) (solver : ModeloPLE → SolveOutcome) (e : Estrategia) : Bool :=
  match solver (modeloDe d e) with
  | SolveOutcome.ok st vals =>
      decide (st = LpStatusE.Optimal) &&
        (extraer_resultados d.matriz d.tiempos d.rutas_ids st vals).isSome
  | SolveOutcome.error => false

/-- The attempt for strategy `e` raises a solver exception. -/
def intentoError (d : Datos) (solver : ModeloPLE → SolveOutcome) (e : Estrategia) : Bool :=
  match solver (modeloDe d e) with
  | SolveOutcome.ok _ _ => false
  | SolveOutcome.error => true

/-- The attempt for strategy `e` neither succeeds nor raises: the loop moves
on to the next strategy. -/
def intentoContinua (d : Datos) (solver : ModeloPLE → SolveOutcome) (e : Estrategia) : Bool :=
  !intentoExitoso d solver e && !intentoError d solver e

/-- The solver status of the attempt for strategy `e` (`none` on a raised
exception). -/
def estadoIntento (d : Datos) (solver : ModeloPLE → SolveOutcome) (e : Estrategia) :
    Option LpStatusE :=
  match solver (modeloDe d e) with
  | SolveOutcome.ok st _ => some st
  | SolveOutcome.error => none

/-- Terminal outcome of `resolver_con_relajacion`: `resuelto` is the
`return True` path (recording the successful strategy name it prints and uses
in the saved file name, plus the extracted records), `fallo` the final
`return False`, `abortado` a solver exception escaping the loop. -/
inductive Resultado
  | resuelto (estrategia : String) (filas : List Fila)
  | fallo
  | abortado
deriving DecidableEq

/-- Observable trace of one `resolver_con_relajacion` run: outcome, number of
strategies attempted, and the infeasibility diagnoses printed along the way
(one per attempt whose status is `Infeasible`). -/
structure Traza where
  resultado : Resultado
  intentos : ℕ
  diagnosticos : List Diagnostico
deriving DecidableEq

/-- The strategy loop of `resolver_con_relajacion`. Per strategy: build the
model, solve. `Optimal` with a nonempty extraction returns; `Optimal` with an
empty extraction falls through to the next strategy (the source has no `else`
after `if resultados is not None`); `Infeasible` prints a diagnosis
(`resolver_modelo` calls `_diagnosticar_infactibilidad`) and continues; other
statuses continue silently; a raised exception propagates. -/
def buscarAux (d : Datos) (solver : ModeloPLE → SolveOutcome) :
    List Estrategia → ℕ → List Diagnostico → Traza
  | [], n, ds => ⟨Resultado.fallo, n, ds⟩
  | e :: rest, n, ds =>
    match solver (modeloDe d e) with
    | SolveOutcome.error => ⟨Resultado.abortado, n + 1, ds⟩
    | SolveOutcome.ok st vals =>
      if st = LpStatusE.Optimal then
        match extraer_resultados d.matriz d.tiempos d.rutas_ids st vals with
        | some filas => ⟨Resultado.resuelto e.nombre filas, n + 1, ds⟩
        | none => buscarAux d solver rest (n + 1) ds
      else if st = LpStatusE.Infeasible then
        buscarAux d solver rest (n + 1)
          (ds ++ [diagnosticar_infactibilidad d.matriz d.capacidades d.rutas_ids])
      else
        buscarAux d solver rest (n + 1) ds

/-- `OptimizadorAsignacion.resolver_con_relajacion`. -/
def resolver_con_relajacion (d : Datos) (solver : ModeloPLE → SolveOutcome) : Traza :=
  buscarAux d solver estrategias 0 []

/-- The diagnoses a run over the strategy list `es` prints when no strategy
succeeds: one copy of the (input-only) diagnosis per `Infeasible` attempt. -/
def diagnosticosDe (d : Datos) (solver : ModeloPLE → SolveOutcome)
    (es : List Estrategia) : List Diagnostico :=
  (es.filter (fun e => decide (estadoIntento d solver e = some LpStatusE.Infeasible))).map
    (fun _ => diagnosticar_infactibilidad d.matriz d.capacidades d.rutas_ids)

/-- The mutable attributes of `OptimizadorAsignacion` read or written by
`crear_modelo_ple`: the loaded snapshot plus `self.patios_ids` and the model
(`self.prob` / `self.x`). -/
structure EstadoOpt where
  matriz : Matriz
  tiempos : Matriz
  capacidades : Capacidades
  rutas_ids : List String
  patios_ids : List String
  prob : Option ModeloPLE
deriving DecidableEq

/-- `crear_modelo_ple` as a state transformer on `self`: it assigns
`self.patios_ids` and `self.prob`/`self.x`; `capacidades_ajustadas` is a local
built from `self.capacidades.copy()` (or `relajar_capacidades`, which builds a
new dict), so `self.capacidades` is left as loaded. -/
def crear_modelo_ple_en (s : EstadoOpt) (balance relajar : Bool) : EstadoOpt :=
  { s with
    patios_ids := s.matriz.map (fun p => p.1),
    prob := some (crear_modelo_ple s.matriz s.capacidades s.rutas_ids balance relajar) }

/-- Runs a sequence of model-build attempts (each a `(balance_carga,
relajar_restricciones)` pair) on the optimizer state, returning the final
state and the model stored in `self.prob` after each build. -/
def construirSecuencia (s : EstadoOpt) : List (Bool × Bool) → EstadoOpt × List (Option ModeloPLE)
  | [] => (s, [])
  | p :: ps =>
    let s2 := crear_modelo_ple_en s p.1 p.2
    let r := construirSecuencia s2 ps
    (r.1, s2.prob :: r.2)

/-- Cost table of the worked scenario: 2 resources `X`, `Y`; 3 demand units
`A`, `B`, `C`; costs `{X: {A: 5, B: 9}, Y: {A: 6, B: 4, C: 3}}`. -/
def matrizEjemplo : Matriz :=
  [("X", [("A", 5), ("B", 9)]), ("Y", [("A", 6), ("B", 4), ("C", 3)])]

/-- Capacities of the worked scenario: `X: 1`, `Y: 2`. -/
def capsEjemplo : Capacidades :=
  [("X", 1), ("Y", 2)]

/-- Demand units of the worked scenario. -/
def rutasEjemplo : List String :=
  ["A", "B", "C"]

/-- The claimed optimal assignment `{A → X, B → Y, C → Y}`, as the set of
variables at value `1`. -/
def asignacionEjemplo : List (String × String) :=
  [("X", "A"), ("Y", "B"), ("Y", "C")]

/-- The scenario model with the stated capacities and no load-balance
constraint (`balance_carga=False, relajar_restricciones=False`). -/
def modeloEjemplo : ModeloPLE :=
  crear_modelo_ple matrizEjemplo capsEjemplo rutasEjemplo false false

/-- The scenario model built by the second relaxation strategy
(`balance_carga=True, relajar_restricciones=True`), the first strategy of the
search under which the scenario instance is feasible. -/
def modeloEjemploRelajado : ModeloPLE :=
  crear_modelo_ple matrizEjemplo capsEjemplo rutasEjemplo true true

/-- The scenario model built by the first (strict) strategy. -/
def modeloEjemploEstricto : ModeloPLE :=
  crear_modelo_ple matrizEjemplo capsEjemplo rutasEjemplo true false

/-- The records extracted from the scenario solution (the time matrix is taken
equal to the distance matrix, which only affects the reporting column). -/
def filasEjemplo : List Fila :=
  [⟨"X", "A", 5, 5⟩, ⟨"Y", "B", 4, 4⟩, ⟨"Y", "C", 3, 3⟩]

/-- The snapshot of the worked scenario packaged for the search. -/
def datosEjemplo : Datos :=
  ⟨matrizEjemplo, matrizEjemplo, capsEjemplo, rutasEjemplo⟩

/-- A degenerate snapshot with one resource and no demand units: its models
have no variables, so any solver reports `Optimal` with every variable absent
and extraction finds nothing. -/
def datosVacios : Datos :=
  ⟨[("P", [])], [("P", [])], [("P", 1)], []⟩

/-- A deterministic exact solver behaviour on the scenario snapshot: any model
still carrying balance constraints is reported infeasible (on this instance
the strict and relaxed balance bounds are unsatisfiable together with the
route constraints), and the balance-free model is solved optimally. -/
def solverEjemplo : ModeloPLE → SolveOutcome := fun m =>
  if m.restBalance = [] then SolveOutcome.ok LpStatusE.Optimal [("X", "A")]
  else SolveOutcome.ok LpStatusE.Infeasible []

/-- A solver that reports every model infeasible. -/
def solverSiempreInfactible : ModeloPLE → SolveOutcome := fun _ =>
  SolveOutcome.ok LpStatusE.Infeasible []

/-- A solver whose invocation always raises (e.g. the CBC binary is absent:
`pulp.PulpSolverError`). -/
def solverSiempreError : ModeloPLE → SolveOutcome := fun _ =>
  SolveOutcome.error

/-- A solver that reports `Optimal` with every variable at `0` — the
behaviour of any exact solver on a model with no variables and no
constraints, such as the ones built from `datosVacios`. -/
def solverSiempreOptimo : ModeloPLE → SolveOutcome := fun _ =>
  SolveOutcome.ok LpStatusE.Optimal []

/-- A solver that never reaches a conclusive status within its budget
(`pulp` status `Undefined`, e.g. on time limit). -/
def solverSiempreIndefinido : ModeloPLE → SolveOutcome := fun _ =>
  SolveOutcome.ok LpStatusE.Undefined []

/-- C2: on the worked scenario (3 demand units `A,B,C`; resources `X`
capacity 1 and `Y` capacity 2; the stated cost table) the assignment
`{A → X, B → Y, C → Y}` satisfies every constraint of the built model and
attains the minimum objective over all 0/1 valuations of the model's
variables, with total cost 12; extracting it yields loads `X: 1`, so `X` runs
at `1/1 · 100 = 100%` utilization. The model carrying the stated capacities
is the balance-free build; the strict build's balance bounds (1..1 per
resource) are unsatisfiable on this instance, and the relaxed build of the
second search strategy is also minimized by the same assignment at cost 12. -/
theorem escenario_tres_rutas :
    satisface modeloEjemplo asignacionEjemplo = true ∧
    costo modeloEjemplo asignacionEjemplo = 12 ∧
    asignacionEjemplo ∈ modeloEjemplo.vars.sublists ∧
    (modeloEjemplo.vars.sublists.all (fun sol =>
      !satisface modeloEjemplo sol || decide ((12 : ℚ) ≤ costo modeloEjemplo sol))) = true ∧
    satisface modeloEjemploRelajado asignacionEjemplo = true ∧
    costo modeloEjemploRelajado asignacionEjemplo = 12 ∧
    (modeloEjemploRelajado.vars.sublists.all (fun sol =>
      !satisface modeloEjemploRelajado sol ||
        decide ((12 : ℚ) ≤ costo modeloEjemploRelajado sol))) = true ∧
    (modeloEjemploEstricto.vars.sublists.all (fun sol =>
      !satisface modeloEjemploEstricto sol)) = true ∧
    extraer_resultados matrizEjemplo matrizEjemplo rutasEjemplo LpStatusE.Optimal
      asignacionEjemplo = some filasEjemplo ∧
    distanciaTotal filasEjemplo = 12 ∧
    cargaPatio filasEjemplo ("X") = 1 ∧
    utilizacion (cargaPatio filasEjemplo ("X")) (capacidadDe capsEjemplo ("X")) = 100 := by
  with_unfolding_all decide

/-- C1 counterexample: on the snapshot with one resource and no demand units,
every strategy's model is empty and an exact solver reports `Optimal` at the
very first attempt; yet the search does not stop there — extraction finds no
assignment (`extraer_resultados` returns `None`), the loop falls through,
all three strategies are attempted and the run ends in the failure path. -/
theorem relajacion_continua_tras_optimo :
    resolver_con_relajacion datosVacios solverSiempreOptimo
      = ⟨Resultado.fallo, 3, []⟩ ∧
    estadoIntento datosVacios solverSiempreOptimo (estrategias.getD 0 estrategiaDefecto)
      = some LpStatusE.Optimal := by
  with_unfolding_all decide

/-- C3 counterexample: with 1 demand unit and 2 resources the average load is
`1/2`; the claimed lower bound `floor(average_load · 0.75) = 0`, but the
builder applies `max(1, ·)` and produces `min_load = 1`, attaching the bound
only to resource `X` (1 valid pair ≥ 1) and not to `Y` (0 valid pairs, which
the claimed rule with `min_load = 0` would also cover). -/
theorem balance_minimo_no_es_piso :
    (crear_modelo_ple [("X", [("A", 1)]), ("Y", [])] [("X", 1), ("Y", 1)]
        ["A"] true false).restBalance = [(("X"), ["A"], 1, 0)] ∧
    entero (((1 : ℚ) / 2) * (3 / 4)) = 0 ∧
    ajustar_balance_carga 1 2 (3 / 4) (5 / 4) = (1, 0) := by
  with_unfolding_all decide

/-- C4 counterexample: an input with both blocking violations — 2 demand
units against total capacity 1, and demand `B` reachable from no resource —
for which the checker reports only the capacity shortfall: it returns at the
first failed check and the isolated demand unit is never reported. -/
theorem verificar_reporta_solo_primera :
    verificar_factibilidad_basica [("X", [("A", 1)])] [("X", 1)] ["A", "B"]
      = (false, [Violacion.capacidadInsuficiente]) ∧
    patiosPosibles [("X", [("A", (1 : ℚ))])] ("B") = [] ∧
    Violacion.rutasSinPatio ∉
      (verificar_factibilidad_basica [("X", [("A", 1)])] [("X", 1)] ["A", "B"]).2 := by
  with_unfolding_all decide

/-- C5 counterexample: when every attempt ends in a non-`Infeasible` failure
(solver status `Undefined`, e.g. out of budget), the search terminates in the
failure path having attempted all three strategies but returns no diagnosis
at all — in particular not the first attempt's. -/
theorem agotadas_sin_diagnostico :
    resolver_con_relajacion datosEjemplo solverSiempreIndefinido
      = ⟨Resultado.fallo, 3, []⟩ := by
  with_unfolding_all decide

/-- C6 counterexample: a solver valuation assigning demand `A` to both `X`
and `Y` — the exactly-one invariant fails — yet extraction returns the two
records as a normal result: the source performs no per-demand uniqueness
check and raises nothing. -/
theorem extraccion_sin_invariante :
    extraer_resultados [("X", [("A", 1)]), ("Y", [("A", 2)])]
        [("X", [("A", 1)]), ("Y", [("A", 2)])] ["A"] LpStatusE.Optimal
        [("X", "A"), ("Y", "A")]
      = some [⟨"X", "A", 1, 1⟩, ⟨"Y", "A", 2, 2⟩] ∧
    (([⟨"X", "A", 1, 1⟩, ⟨"Y", "A", 2, 2⟩] : List Fila).filter
        (fun f => f.ruta_id == ("A"))).length = 2 := by
  with_unfolding_all decide

/-- C7 counterexample: a resource absent from the capacity table has capacity
`CAPACIDAD_PATIO_DEFAULT = 15` (the default of the data model), but its
relaxed capacity constraint keeps the bound 15 instead of the claimed
`int(15 · 1.5) = 22`: `relajar_capacidades` only rescales table entries, and
the default is fetched afterwards, unrelaxed. -/
theorem capacidad_por_defecto_sin_relajar :
    (crear_modelo_ple [("P", [("A", 1)])] [] ["A"] false true).restCapacidad
      = [(("P"), ["A"], CAPACIDAD_PATIO_DEFAULT)] ∧
    entero ((CAPACIDAD_PATIO_DEFAULT : ℚ) * (3 / 2)) = 22 ∧
    CAPACIDAD_PATIO_DEFAULT = 15 := by
  with_unfolding_all decide

/-- Claim C4 (amended): the feasibility pre-check is a pure function of its
inputs but reports only the FIRST blocking violation found, capacity checked
first: under a capacity shortfall it returns `(false, [capacidadInsuficiente])`
without examining isolation; isolated demand units are reported only when
total capacity suffices; with no violation it returns `(true, [])`. -/
theorem verificar_primer_problema (matriz : Matriz) (caps : Capacidades)
    (rutas : List String) :
    (capacidadTotal caps < rutas.length →
      verificar_factibilidad_basica matriz caps rutas
        = (false, [Violacion.capacidadInsuficiente])) ∧
    (rutas.length ≤ capacidadTotal caps →
      (∃ r ∈ rutas, patiosPosibles matriz r = []) →
      verificar_factibilidad_basica matriz caps rutas
        = (false, [Violacion.rutasSinPatio])) ∧
    (rutas.length ≤ capacidadTotal caps →
      (∀ r ∈ rutas, patiosPosibles matriz r ≠ []) →
      verificar_factibilidad_basica matriz caps rutas = (true, [])) := by
  refine ⟨?_, ?_, ?_⟩
  · intro h
    simp only [verificar_factibilidad_basica, if_pos h]
  · intro h1 h2
    obtain ⟨r, hr, hrp⟩ := h2
    have hno : ¬ rutas.length > capacidadTotal caps := by omega
    simp only [verificar_factibilidad_basica, if_neg hno]
    have hne : rutas.filter (fun x => (patiosPosibles matriz x).isEmpty) ≠ [] := by
      intro hnil
      have := List.filter_eq_nil_iff.mp hnil r hr
      simp [hrp] at this
    simp [List.isEmpty_iff, hne]
  · intro h1 h2
    have hno : ¬ rutas.length > capacidadTotal caps := by omega
    simp only [verificar_factibilidad_basica, if_neg hno]
    have hnil : rutas.filter (fun x => (patiosPosibles matriz x).isEmpty) = [] := by
      apply List.filter_eq_nil_iff.mpr
      intro a ha
      simp [List.isEmpty_iff]
      exact h2 a ha
    simp [List.isEmpty_iff, hnil]

/-- Claim C8: every demand id with no cost entry in any resource's row is
reported among the isolated demand units (`rutas_sin_patio` of the diagnosis,
computed unconditionally from the snapshot) and appears in no
exactly-one-resource constraint; the builder creates `Σ_r x[r,d] = 1`
precisely for the demand ids with at least one valid pair. -/
theorem aisladas_reportadas_y_excluidas (matriz : Matriz) (caps : Capacidades)
    (rutas : List String) (balance relajar : Bool) (j : String) :
    (j ∈ rutas → patiosPosibles matriz j = [] →
      j ∈ (diagnosticar_infactibilidad matriz caps rutas).rutas_sin_patio ∧
      ∀ pv, (j, pv) ∉ (crear_modelo_ple matriz caps rutas balance relajar).restRuta) ∧
    ((∃ pv, (j, pv) ∈ (crear_modelo_ple matriz caps rutas balance relajar).restRuta) ↔
      (j ∈ rutas ∧ patiosPosibles matriz j ≠ [])) := by
  have hmem : ∀ pv, ((j, pv) ∈ (crear_modelo_ple matriz caps rutas balance relajar).restRuta ↔
      (j ∈ rutas ∧ patiosPosibles matriz j ≠ [] ∧ pv = patiosPosibles matriz j)) := by
    intro pv
    simp only [crear_modelo_ple, List.mem_filterMap]
    constructor
    · rintro ⟨a, ha, hfa⟩
      by_cases hie : (patiosPosibles matriz a).isEmpty = true
      · rw [if_pos hie] at hfa
        exact absurd hfa (by simp)
      · rw [if_neg hie] at hfa
        have hinj := Option.some.inj hfa
        have ha1 : a = j := congrArg Prod.fst hinj
        have ha2 : patiosPosibles matriz a = pv := congrArg Prod.snd hinj
        subst ha1
        refine ⟨ha, ?_, ha2.symm⟩
        intro hnil
        exact hie (by simp [hnil])
    · rintro ⟨hj, hne, hpv⟩
      exact ⟨j, hj, by simp [List.isEmpty_iff, hne, hpv]⟩
  constructor
  · intro hj hiso
    constructor
    · simp [diagnosticar_infactibilidad, List.mem_filter, hj, hiso, List.isEmpty_iff]
    · intro pv hpv
      have := (hmem pv).mp hpv
      exact this.2.1 hiso
  · constructor
    · rintro ⟨pv, hpv⟩
      have := (hmem pv).mp hpv
      exact ⟨this.1, this.2.1⟩
    · rintro ⟨hj, hne⟩
      exact ⟨patiosPosibles matriz j, (hmem _).mpr ⟨hj, hne, rfl⟩⟩

/-- Relaxing capacities rescales exactly the table entries: lookup after
`relajar_capacidades` is the rescaled lookup, and a missing key stays
missing. -/
theorem capacidadBruta_relajar (caps : Capacidades) (factor : ℚ) (i : String) :
    capacidadBruta (relajar_capacidades caps factor) i
      = (capacidadBruta caps i).map (fun c0 : ℕ => entero ((c0 : ℚ) * factor)) := by
  induction caps with
  | nil => rfl
  | cons p ps ih =>
    cases hb : (p.1 == i)
    · simp only [capacidadBruta, relajar_capacidades, List.map_cons, List.find?_cons,
        hb] at ih ⊢
      exact ih
    · simp [capacidadBruta, relajar_capacidades, List.find?_cons, hb]

/-- Claim C7 (amended): in a model built under relaxation, the capacity bound
of every resource PRESENT in the capacity table is `int(capacity[r] * 1.5)`,
truncated to an integer before model construction (the constraint stores a
natural number); a resource absent from the table gets the unrelaxed default
capacity `CAPACIDAD_PATIO_DEFAULT`. -/
theorem capacidad_relajada_en_modelo (matriz : Matriz) (caps : Capacidades)
    (rutas : List String) (balance : Bool) (i : String) (rv : List String) (c : ℕ)
    (h : (i, rv, c) ∈ (crear_modelo_ple matriz caps rutas balance true).restCapacidad) :
    (∀ c0, capacidadBruta caps i = some c0 → c = entero ((c0 : ℚ) * (3 / 2))) ∧
    (capacidadBruta caps i = none → c = CAPACIDAD_PATIO_DEFAULT) := by
  simp only [crear_modelo_ple, List.mem_filterMap] at h
  obtain ⟨a, ha, hfa⟩ := h
  by_cases hie : (rutas_validas matriz rutas a).isEmpty = true
  · rw [if_pos hie] at hfa
    exact absurd hfa (by simp)
  · rw [if_neg hie] at hfa
    have hinj := Option.some.inj hfa
    have ha1 : a = i := congrArg Prod.fst hinj
    have hc : capacidadDe (relajar_capacidades caps (3 / 2)) a = c := by
      have := congrArg Prod.snd hinj
      exact congrArg Prod.snd this
    subst ha1
    rw [capacidadDe, capacidadBruta_relajar] at hc
    constructor
    · intro c0 hc0
      rw [hc0] at hc
      simpa using hc.symm
    · intro hc0
      rw [hc0] at hc
      simpa using hc.symm

/-- Witness for `capacidad_relajada_en_modelo` on a one-resource instance
with table capacity 3: the relaxed bound is `int(3 * 1.5) = 4`. -/
theorem capacidad_relajada_en_modelo_testigo :
    (∀ c0, capacidadBruta [("X", 3)] ("X") = some c0 → 4 = entero ((c0 : ℚ) * (3 / 2))) ∧
    (capacidadBruta [("X", 3)] ("X") = none → 4 = CAPACIDAD_PATIO_DEFAULT) :=
  capacidad_relajada_en_modelo [("X", [("A", 1)])] [("X", 3)] ["A"] false ("X") ["A"] 4
    (by with_unfolding_all decide)

/-- The balance-constraint block of a built model, read off the builder. -/
theorem restBalance_crear (matriz : Matriz) (caps : Capacidades) (rutas : List String)
    (balance relajar : Bool) :
    (crear_modelo_ple matriz caps rutas balance relajar).restBalance =
      if balance && decide (0 < (patios_ids matriz).length) then
        (patios_ids matriz).filterMap (fun i =>
          let rv := rutas_validas matriz rutas i
          let lim := ajustar_balance_carga rutas.length (patios_ids matriz).length
            (factoresBalance relajar).1 (factoresBalance relajar).2
          if !rv.isEmpty && decide (lim.1 ≤ rv.length) then
            some (i, rv, lim.1, lim.2)
          else none)
      else [] := rfl

/-- First component of `ajustar_balance_carga`: `max(1, int(avg * f1))`. -/
theorem ajustar_balance_fst (tr tp : ℕ) (f1 f2 : ℚ) :
    (ajustar_balance_carga tr tp f1 f2).1 = max 1 (entero ((tr : ℚ) / (tp : ℚ) * f1)) := rfl

/-- Second component of `ajustar_balance_carga`: `int(avg * f2)`. -/
theorem ajustar_balance_snd (tr tp : ℕ) (f1 f2 : ℚ) :
    (ajustar_balance_carga tr tp f1 f2).2 = entero ((tr : ℚ) / (tp : ℚ) * f2) := rfl

/-- Claim C3 (amended): when balance is enabled (and there is at least one
resource), the built model carries the constraint `mn ≤ Σ_d x[r,d] ≤ mx` with
`mn = max(1, floor(average_load * balance_min_factor))` and
`mx = floor(average_load * balance_max_factor)`, where
`average_load = |demand_ids| / |resource_ids|`, exactly for the resources
whose count of valid candidate pairs is at least `mn`. -/
theorem balance_en_modelo (matriz : Matriz) (caps : Capacidades) (rutas : List String)
    (relajar : Bool) (h : matriz ≠ []) (i : String) (rv : List String) (a b : ℕ) :
    ((i, rv, a, b) ∈ (crear_modelo_ple matriz caps rutas true relajar).restBalance) ↔
      (i ∈ patios_ids matriz ∧ rv = rutas_validas matriz rutas i ∧
       a = max 1 (entero ((rutas.length : ℚ) / (((patios_ids matriz).length : ℕ) : ℚ) *
             (factoresBalance relajar).1)) ∧
       b = entero ((rutas.length : ℚ) / (((patios_ids matriz).length : ℕ) : ℚ) *
             (factoresBalance relajar).2) ∧
       a ≤ rv.length) := by
  have hlen : 0 < (patios_ids matriz).length := by
    cases matriz with
    | nil => exact absurd rfl h
    | cons x xs => simp [patios_ids]
  rw [restBalance_crear, if_pos (by simp [hlen])]
  simp only [List.mem_filterMap]
  constructor
  · rintro ⟨x, hx, hfx⟩
    by_cases hc : (!(rutas_validas matriz rutas x).isEmpty &&
        decide ((ajustar_balance_carga rutas.length (patios_ids matriz).length
          (factoresBalance relajar).1 (factoresBalance relajar).2).1 ≤
            (rutas_validas matriz rutas x).length)) = true
    · rw [if_pos hc] at hfx
      have hinj := Option.some.inj hfx
      rw [Prod.mk.injEq, Prod.mk.injEq, Prod.mk.injEq] at hinj
      obtain ⟨hx1, hx2, hx3, hx4⟩ := hinj
      subst hx1
      rw [ajustar_balance_fst] at hx3
      rw [ajustar_balance_snd] at hx4
      refine ⟨hx, hx2.symm, hx3.symm, hx4.symm, ?_⟩
      have hand := (Bool.and_eq_true _ _).mp hc
      have hle := of_decide_eq_true hand.2
      rw [ajustar_balance_fst] at hle
      rw [hx3, hx2] at hle
      exact hle
    · rw [if_neg hc] at hfx
      exact absurd hfx (by simp)
  · rintro ⟨hi, hrv, ha, hb, hle⟩
    refine ⟨i, hi, ?_⟩
    have hc : (!(rutas_validas matriz rutas i).isEmpty &&
        decide ((ajustar_balance_carga rutas.length (patios_ids matriz).length
          (factoresBalance relajar).1 (factoresBalance relajar).2).1 ≤
            (rutas_validas matriz rutas i).length)) = true := by
      rw [ajustar_balance_fst]
      have h1 : 1 ≤ a := ha ▸ le_max_left 1 _
      have hpos : 0 < rv.length := lt_of_lt_of_le h1 hle
      refine (Bool.and_eq_true _ _).mpr ⟨?_, ?_⟩
      · rw [← hrv]
        simp only [Bool.not_eq_true']
        rw [List.isEmpty_eq_false_iff_exists_mem]
        exact List.exists_mem_of_length_pos hpos
      · exact decide_eq_true (by rw [← ha, ← hrv]; exact hle)
    rw [if_pos hc, ajustar_balance_fst, ajustar_balance_snd, ← ha, ← hb, ← hrv]

/-- Witness for `balance_en_modelo` on the worked scenario: the strict model
carries the bound `1 ≤ load(X) ≤ 1`. -/
theorem balance_en_modelo_testigo :
    (("X"), ["A", "B"], 1, 1) ∈
      (crear_modelo_ple matrizEjemplo capsEjemplo rutasEjemplo true false).restBalance :=
  (balance_en_modelo matrizEjemplo capsEjemplo rutasEjemplo false
      (by with_unfolding_all decide) ("X") ["A", "B"] 1 1).mpr
    (by with_unfolding_all decide)

/-- Claim C6 (amended): extraction never yields an assignment for a
non-`Optimal` status; a successful extraction happens exactly on `Optimal`
with a nonempty collected list, and its records are precisely the defined
pairs whose variable equals 1 (in model order); no exactly-one-resource
invariant is checked and nothing is raised (see
`extraccion_sin_invariante`). -/
theorem extraer_resultados_caracterizacion (matriz tiempos : Matriz)
    (rutas : List String) (status : LpStatusE) (vals : List (String × String)) :
    (status ≠ LpStatusE.Optimal →
      extraer_resultados matriz tiempos rutas status vals = none) ∧
    (∀ filas, extraer_resultados matriz tiempos rutas status vals = some filas →
      status = LpStatusE.Optimal ∧ filas ≠ [] ∧
      filas.map (fun f => (f.patio_id, f.ruta_id)) = paresAsignados matriz rutas vals) ∧
    (∀ i k, ((i, k) ∈ paresAsignados matriz rutas vals ↔
      (i ∈ patios_ids matriz ∧ k ∈ rutas ∧ tieneEntrada matriz i k = true ∧
        vals.contains (i, k) = true))) := by
  refine ⟨?_, ?_, ?_⟩
  · intro h
    rw [extraer_resultados, if_pos h]
  · intro filas hf
    by_cases hst : status = LpStatusE.Optimal
    · subst hst
      rw [extraer_resultados, if_neg (by simp)] at hf
      by_cases hlen : ((paresAsignados matriz rutas vals).map (fun p =>
          (⟨p.1, p.2, (entrada matriz p.1 p.2).getD 0,
            (entrada tiempos p.1 p.2).getD 0⟩ : Fila))).length > 0
      · rw [if_pos hlen] at hf
        have hfe := Option.some.inj hf
        refine ⟨rfl, ?_, ?_⟩
        · rw [← hfe]
          intro hnil
          rw [hnil] at hlen
          simp at hlen
        · rw [← hfe, List.map_map]
          have : ((fun f : Fila => (f.patio_id, f.ruta_id)) ∘ (fun p : String × String =>
              (⟨p.1, p.2, (entrada matriz p.1 p.2).getD 0,
                (entrada tiempos p.1 p.2).getD 0⟩ : Fila))) = fun p => (p.1, p.2) := rfl
          rw [this]
          simp
      · rw [if_neg hlen] at hf
        exact absurd hf (by simp)
    · rw [extraer_resultados, if_pos hst] at hf
      exact absurd hf (by simp)
  · intro i k
    simp only [paresAsignados, List.mem_flatten, List.mem_map, rutas_validas]
    constructor
    · rintro ⟨l, ⟨x, hx, hlx⟩, hmem⟩
      rw [← hlx] at hmem
      simp only [List.mem_map, List.mem_filter] at hmem
      obtain ⟨j, ⟨⟨hj, hten⟩, hcon⟩, hjeq⟩ := hmem
      rw [Prod.mk.injEq] at hjeq
      obtain ⟨he1, he2⟩ := hjeq
      subst he1
      subst he2
      exact ⟨hx, hj, hten, hcon⟩
    · rintro ⟨hi, hk, hten, hcon⟩
      refine ⟨((rutas.filter (fun j => tieneEntrada matriz i j)).filter
          (fun j => vals.contains (i, j))).map (fun j => (i, j)), ⟨i, hi, rfl⟩, ?_⟩
      simp only [List.mem_map, List.mem_filter]
      exact ⟨k, ⟨⟨hk, hten⟩, hcon⟩, rfl⟩

/-- Witness for `verificar_primer_problema`: a shortfall input, an isolated
input with enough capacity, and a clean input. -/
theorem verificar_primer_problema_testigo :
    verificar_factibilidad_basica [("X", [("A", 1)])] [("X", 1)] ["A", "B"]
      = (false, [Violacion.capacidadInsuficiente]) ∧
    verificar_factibilidad_basica [("X", [("A", 1)])] [("X", 5)] ["A", "B"]
      = (false, [Violacion.rutasSinPatio]) ∧
    verificar_factibilidad_basica [("X", [("A", 1)])] [("X", 5)] ["A"] = (true, []) :=
  ⟨(verificar_primer_problema [("X", [("A", 1)])] [("X", 1)] ["A", "B"]).1
      (by with_unfolding_all decide),
   (verificar_primer_problema [("X", [("A", 1)])] [("X", 5)] ["A", "B"]).2.1
      (by with_unfolding_all decide)
      ⟨"B", by with_unfolding_all decide, by with_unfolding_all decide⟩,
   (verificar_primer_problema [("X", [("A", 1)])] [("X", 5)] ["A"]).2.2
      (by with_unfolding_all decide) (by with_unfolding_all decide)⟩

/-- Witness for `extraer_resultados_caracterizacion` on the worked scenario:
`Infeasible` yields no assignment, and the optimal valuation's extraction
consists exactly of its value-1 pairs. -/
theorem extraer_resultados_caracterizacion_testigo :
    extraer_resultados matrizEjemplo matrizEjemplo rutasEjemplo LpStatusE.Infeasible
      asignacionEjemplo = none ∧
    (LpStatusE.Optimal = LpStatusE.Optimal ∧ filasEjemplo ≠ [] ∧
      filasEjemplo.map (fun f => (f.patio_id, f.ruta_id))
        = paresAsignados matrizEjemplo rutasEjemplo asignacionEjemplo) :=
  ⟨(extraer_resultados_caracterizacion matrizEjemplo matrizEjemplo rutasEjemplo
      LpStatusE.Infeasible asignacionEjemplo).1 (by with_unfolding_all decide),
   (extraer_resultados_caracterizacion matrizEjemplo matrizEjemplo rutasEjemplo
      LpStatusE.Optimal asignacionEjemplo).2.1 filasEjemplo (by with_unfolding_all decide)⟩

theorem aisladas_reportadas_y_excluidas_testigo :
    ("B") ∈ (diagnosticar_infactibilidad [("X", [("A", 1)])] [("X", 2)]
      ["A", "B"]).rutas_sin_patio ∧
    ∀ pv, (("B"), pv) ∉
      (crear_modelo_ple [("X", [("A", 1)])] [("X", 2)] ["A", "B"] true false).restRuta :=
  (aisladas_reportadas_y_excluidas [("X", [("A", 1)])] [("X", 2)] ["A", "B"] true false
      ("B")).1 (by with_unfolding_all decide) (by with_unfolding_all decide)

/-- One non-terminating loop iteration: a strategy that neither succeeds nor
raises advances to the rest of the list, appending one diagnosis exactly when
its status is `Infeasible`. -/
theorem buscarAux_paso (d : Datos) (solver : ModeloPLE → SolveOutcome) (e : Estrategia)
    (rest : List Estrategia) (n : ℕ) (ds : List Diagnostico)
    (h : intentoContinua d solver e = true) :
    buscarAux d solver (e :: rest) n ds =
      buscarAux d solver rest (n + 1)
        (ds ++ if estadoIntento d solver e = some LpStatusE.Infeasible
               then [diagnosticar_infactibilidad d.matriz d.capacidades d.rutas_ids]
               else []) := by
  unfold intentoContinua intentoExitoso intentoError at h
  unfold estadoIntento
  cases hsol : solver (modeloDe d e) with
  | error =>
    rw [hsol] at h
    simp at h
  | ok st vals =>
    rw [hsol] at h
    simp only [Bool.and_eq_true, Bool.not_eq_true', Bool.and_eq_false_iff,
      decide_eq_false_iff_not] at h
    rw [buscarAux, hsol]
    dsimp only
    by_cases hst : st = LpStatusE.Optimal
    · have hext : extraer_resultados d.matriz d.tiempos d.rutas_ids st vals = none := by
        rcases h.1 with h1 | h1
        · exact absurd hst h1
        · exact Option.not_isSome_iff_eq_none.mp (by simp [h1])
      rw [if_pos hst, hext]
      have : ¬ some st = some LpStatusE.Infeasible := by
        rw [hst]
        simp
      rw [if_neg this, List.append_nil]
    · rw [if_neg hst]
      by_cases hinf : st = LpStatusE.Infeasible
      · rw [if_pos hinf, if_pos (by rw [hinf])]
      · rw [if_neg hinf, if_neg (by simpa using hinf), List.append_nil]

/-- If the first `k` strategies fall through and the `(k+1)`-st attempt is
`Optimal` with a nonempty extraction, the loop returns that strategy's name
and record list, having attempted `k+1` strategies. -/
theorem buscarAux_exito (d : Datos) (solver : ModeloPLE → SolveOutcome) :
    ∀ (es : List Estrategia) (k n : ℕ) (ds : List Diagnostico), k < es.length →
    (∀ j, j < k → intentoContinua d solver (es.getD j estrategiaDefecto) = true) →
    intentoExitoso d solver (es.getD k estrategiaDefecto) = true →
    ∃ filas ds2, buscarAux d solver es n ds =
      ⟨Resultado.resuelto (es.getD k estrategiaDefecto).nombre filas, n + (k + 1), ds2⟩ := by
  intro es
  induction es with
  | nil =>
    intro k n ds hk
    simp at hk
  | cons e rest ih =>
    intro k n ds hk hprev hex
    cases k with
    | zero =>
      simp only [List.getD_cons_zero] at hex ⊢
      unfold intentoExitoso at hex
      cases hsol : solver (modeloDe d e) with
      | error =>
        rw [hsol] at hex
        simp at hex
      | ok st vals =>
        rw [hsol] at hex
        simp only [Bool.and_eq_true, decide_eq_true_eq, Option.isSome_iff_exists] at hex
        obtain ⟨hst, filas, hext⟩ := hex
        refine ⟨filas, ds, ?_⟩
        rw [buscarAux, hsol]
        dsimp only
        rw [if_pos hst, hext]
    | succ k2 =>
      have hc : intentoContinua d solver e = true := by
        have h0 := hprev 0 (Nat.succ_pos k2)
        simpa using h0
      rw [buscarAux_paso d solver e rest n ds hc]
      have hk2 : k2 < rest.length := by simpa using hk
      have hprev2 : ∀ j, j < k2 →
          intentoContinua d solver (rest.getD j estrategiaDefecto) = true := by
        intro j hj
        have := hprev (j + 1) (by omega)
        simpa using this
      have hex2 : intentoExitoso d solver (rest.getD k2 estrategiaDefecto) = true := by
        simpa using hex
      obtain ⟨filas, ds2, hres⟩ := ih k2 (n + 1) _ hk2 hprev2 hex2
      refine ⟨filas, ds2, ?_⟩
      rw [hres]
      have harith : n + 1 + (k2 + 1) = n + (k2 + 1 + 1) := by omega
      rw [harith]
      simp

/-- If the first `k` strategies fall through and the `(k+1)`-st attempt
raises, the loop terminates abortively with exactly `k+1` attempts. -/
theorem buscarAux_error (d : Datos) (solver : ModeloPLE → SolveOutcome) :
    ∀ (es : List Estrategia) (k n : ℕ) (ds : List Diagnostico), k < es.length →
    (∀ j, j < k → intentoContinua d solver (es.getD j estrategiaDefecto) = true) →
    intentoError d solver (es.getD k estrategiaDefecto) = true →
    ∃ ds2, buscarAux d solver es n ds = ⟨Resultado.abortado, n + (k + 1), ds2⟩ := by
  intro es
  induction es with
  | nil =>
    intro k n ds hk
    simp at hk
  | cons e rest ih =>
    intro k n ds hk hprev herr
    cases k with
    | zero =>
      simp only [List.getD_cons_zero] at herr
      unfold intentoError at herr
      cases hsol : solver (modeloDe d e) with
      | error =>
        refine ⟨ds, ?_⟩
        rw [buscarAux, hsol]
      | ok st vals =>
        rw [hsol] at herr
        simp at herr
    | succ k2 =>
      have hc : intentoContinua d solver e = true := by
        have h0 := hprev 0 (Nat.succ_pos k2)
        simpa using h0
      rw [buscarAux_paso d solver e rest n ds hc]
      have hk2 : k2 < rest.length := by simpa using hk
      have hprev2 : ∀ j, j < k2 →
          intentoContinua d solver (rest.getD j estrategiaDefecto) = true := by
        intro j hj
        have := hprev (j + 1) (by omega)
        simpa using this
      have herr2 : intentoError d solver (rest.getD k2 estrategiaDefecto) = true := by
        simpa using herr
      obtain ⟨ds2, hres⟩ := ih k2 (n + 1) _ hk2 hprev2 herr2
      refine ⟨ds2, ?_⟩
      rw [hres]
      have harith : n + 1 + (k2 + 1) = n + (k2 + 1 + 1) := by omega
      rw [harith]

/-- If every strategy falls through, the loop returns the failure outcome
after attempting the whole list, having emitted one copy of the (input-only)
diagnosis per `Infeasible` attempt. -/
theorem buscarAux_fallo (d : Datos) (solver : ModeloPLE → SolveOutcome) :
    ∀ (es : List Estrategia) (n : ℕ) (ds : List Diagnostico),
    (∀ e ∈ es, intentoContinua d solver e = true) →
    buscarAux d solver es n ds =
      ⟨Resultado.fallo, n + es.length, ds ++ diagnosticosDe d solver es⟩ := by
  intro es
  induction es with
  | nil =>
    intro n ds h
    simp [buscarAux, diagnosticosDe]
  | cons e rest ih =>
    intro n ds h
    rw [buscarAux_paso d solver e rest n ds (h e (List.mem_cons_self e rest))]
    rw [ih (n + 1) _ (fun x hx => h x (List.mem_cons_of_mem e hx))]
    have harith : n + 1 + rest.length = n + (e :: rest).length := by
      simp
      omega
    rw [harith]
    by_cases hinf : estadoIntento d solver e = some LpStatusE.Infeasible
    · rw [if_pos hinf]
      simp only [diagnosticosDe, List.filter_cons, decide_eq_true hinf, List.map_cons,
        List.append_assoc]
      simp [hinf]
    · rw [if_neg hinf]
      simp only [List.append_nil, diagnosticosDe, List.filter_cons]
      have hdec : (decide (estadoIntento d solver e = some LpStatusE.Infeasible)) = false :=
        decide_eq_false hinf
      rw [hdec]
      simp

/-- Claim C1 (amended): the search attempts the fixed finite strategy list
strictly in order, starting from the unrelaxed baseline
(`balance_carga=True, relajar_restricciones=False`, i.e. capacity factor 1
with balance enabled); it stops at the first strategy whose solve status is
`Optimal` AND whose extraction yields at least one assignment, attempting no
further strategy, and reports the name of the strategy that succeeded. -/
theorem resolver_con_relajacion_primer_exito (d : Datos) (solver : ModeloPLE → SolveOutcome)
    (k : ℕ) (hk : k < estrategias.length)
    (hprev : ∀ j, j < k →
      intentoContinua d solver (estrategias.getD j estrategiaDefecto) = true)
    (hex : intentoExitoso d solver (estrategias.getD k estrategiaDefecto) = true) :
    estrategias.getD 0 estrategiaDefecto = ⟨true, false, "Estricto"⟩ ∧
    ∃ filas ds2, resolver_con_relajacion d solver =
      ⟨Resultado.resuelto (estrategias.getD k estrategiaDefecto).nombre filas,
        k + 1, ds2⟩ := by
  refine ⟨rfl, ?_⟩
  obtain ⟨filas, ds2, hres⟩ := buscarAux_exito d solver estrategias k 0 [] hk hprev hex
  refine ⟨filas, ds2, ?_⟩
  rw [resolver_con_relajacion, hres]
  simp

/-- Witness for `resolver_con_relajacion_primer_exito`: on the worked
scenario with a solver that rejects both balance-carrying models, the search
succeeds at the third strategy after exactly three attempts. -/
theorem resolver_con_relajacion_primer_exito_testigo :
    estrategias.getD 0 estrategiaDefecto = ⟨true, false, "Estricto"⟩ ∧
    ∃ filas ds2, resolver_con_relajacion datosEjemplo solverEjemplo =
      ⟨Resultado.resuelto (estrategias.getD 2 estrategiaDefecto).nombre filas,
        2 + 1, ds2⟩ :=
  resolver_con_relajacion_primer_exito datosEjemplo solverEjemplo 2
    (by with_unfolding_all decide) (by with_unfolding_all decide)
    (by with_unfolding_all decide)

/-- Claim C9: when a solve attempt raises a solver error (transport or
invocation failure, unlike solver-reported infeasibility), the exception
propagates out of the loop at once: the search ends in the aborted state
having attempted exactly the strategies up to and including the failing one —
no strategy is attempted after it. -/
theorem resolver_con_relajacion_aborta (d : Datos) (solver : ModeloPLE → SolveOutcome)
    (k : ℕ) (hk : k < estrategias.length)
    (hprev : ∀ j, j < k →
      intentoContinua d solver (estrategias.getD j estrategiaDefecto) = true)
    (herr : intentoError d solver (estrategias.getD k estrategiaDefecto) = true) :
    (∃ ds2, resolver_con_relajacion d solver = ⟨Resultado.abortado, k + 1, ds2⟩) ∧
    k + 1 ≤ estrategias.length := by
  obtain ⟨ds2, hres⟩ := buscarAux_error d solver estrategias k 0 [] hk hprev herr
  refine ⟨⟨ds2, ?_⟩, by omega⟩
  rw [resolver_con_relajacion, hres]
  simp

/-- Witness for `resolver_con_relajacion_aborta`: an error at the very first
attempt aborts the search after one attempt. -/
theorem resolver_con_relajacion_aborta_testigo :
    (∃ ds2, resolver_con_relajacion datosEjemplo solverSiempreError =
      ⟨Resultado.abortado, 0 + 1, ds2⟩) ∧
    0 + 1 ≤ estrategias.length :=
  resolver_con_relajacion_aborta datosEjemplo solverSiempreError 0
    (by with_unfolding_all decide) (by with_unfolding_all decide)
    (by with_unfolding_all decide)

/-- Claim C5 (amended): if every strategy fails (none reaches `Optimal` with
a nonempty extraction and none raises), the search terminates in the
no-feasible-solution outcome after attempting all strategies; it emits one
diagnosis per `Infeasible` attempt — each equal to the diagnosis of the input
snapshot, which is what the first attempt's diagnosis is, the diagnosis being
independent of the strategy — and when the first attempt is `Infeasible` the
first emitted diagnosis is the first attempt's; when no attempt is
`Infeasible`, no diagnosis is emitted (see `agotadas_sin_diagnostico`). -/
theorem resolver_con_relajacion_agotado (d : Datos) (solver : ModeloPLE → SolveOutcome)
    (h : ∀ e ∈ estrategias, intentoContinua d solver e = true) :
    (resolver_con_relajacion d solver).resultado = Resultado.fallo ∧
    (resolver_con_relajacion d solver).intentos = estrategias.length ∧
    (resolver_con_relajacion d solver).diagnosticos = diagnosticosDe d solver estrategias ∧
    (∀ x ∈ (resolver_con_relajacion d solver).diagnosticos,
      x = diagnosticar_infactibilidad d.matriz d.capacidades d.rutas_ids) ∧
    (estadoIntento d solver (estrategias.getD 0 estrategiaDefecto)
        = some LpStatusE.Infeasible →
      (resolver_con_relajacion d solver).diagnosticos.head? =
        some (diagnosticar_infactibilidad d.matriz d.capacidades d.rutas_ids)) := by
  have hres := buscarAux_fallo d solver estrategias 0 [] h
  rw [resolver_con_relajacion, hres]
  refine ⟨rfl, by simp, by simp, ?_, ?_⟩
  · intro x hx
    simp only [List.nil_append, diagnosticosDe, List.mem_map] at hx
    obtain ⟨a, _, hax⟩ := hx
    exact hax.symm
  · intro h0
    have h0e : estadoIntento d solver (⟨true, false, "Estricto"⟩ : Estrategia)
        = some LpStatusE.Infeasible := by
      simpa [estrategias, estrategiaDefecto] using h0
    dsimp only
    rw [List.nil_append, diagnosticosDe]
    have hsplit : estrategias = (⟨true, false, "Estricto"⟩ : Estrategia) ::
        [⟨true, true, "Relajado 1"⟩, ⟨false, true, "Relajado 2"⟩] := rfl
    rw [hsplit, List.filter_cons, decide_eq_true h0e]
    rfl

/-- Witness for `resolver_con_relajacion_agotado`: on the worked scenario
with an always-infeasible solver, all five conclusions hold. -/
theorem resolver_con_relajacion_agotado_testigo :
    (resolver_con_relajacion datosEjemplo solverSiempreInfactible).resultado
      = Resultado.fallo ∧
    (resolver_con_relajacion datosEjemplo solverSiempreInfactible).intentos
      = estrategias.length ∧
    (resolver_con_relajacion datosEjemplo solverSiempreInfactible).diagnosticos
      = diagnosticosDe datosEjemplo solverSiempreInfactible estrategias ∧
    (∀ x ∈ (resolver_con_relajacion datosEjemplo solverSiempreInfactible).diagnosticos,
      x = diagnosticar_infactibilidad datosEjemplo.matriz datosEjemplo.capacidades
        datosEjemplo.rutas_ids) ∧
    (estadoIntento datosEjemplo solverSiempreInfactible (estrategias.getD 0 estrategiaDefecto)
        = some LpStatusE.Infeasible →
      (resolver_con_relajacion datosEjemplo solverSiempreInfactible).diagnosticos.head? =
        some (diagnosticar_infactibilidad datosEjemplo.matriz datosEjemplo.capacidades
          datosEjemplo.rutas_ids)) :=
  resolver_con_relajacion_agotado datosEjemplo solverSiempreInfactible
    (by with_unfolding_all decide)

/-- Claim C10: building models never mutates the loaded capacity table: after
any sequence of build attempts (relaxed or not) the stored capacities — and
the whole loaded snapshot — equal the loaded values, and the model stored by
the `k`-th build is computed from the ORIGINAL capacities and that attempt's
parameters alone, so relaxation never compounds across attempts. -/
theorem crear_modelo_no_muta_capacidades (s : EstadoOpt) (ps : List (Bool × Bool)) :
    (construirSecuencia s ps).1.capacidades = s.capacidades ∧
    (construirSecuencia s ps).1.matriz = s.matriz ∧
    (construirSecuencia s ps).1.rutas_ids = s.rutas_ids ∧
    (construirSecuencia s ps).2 =
      ps.map (fun p => some (crear_modelo_ple s.matriz s.capacidades s.rutas_ids p.1 p.2)) := by
  induction ps generalizing s with
  | nil => exact ⟨rfl, rfl, rfl, rfl⟩
  | cons p pt ih =>
    have h2 := ih (crear_modelo_ple_en s p.1 p.2)
    refine ⟨h2.1, h2.2.1, h2.2.2.1, ?_⟩
    show (crear_modelo_ple_en s p.1 p.2).prob ::
        (construirSecuencia (crear_modelo_ple_en s p.1 p.2) pt).2 = _
    rw [List.map_cons, h2.2.2.2]
    rfl
